import Mathlib

/-!
Verification of `ospd_openvas/notus/metadata.py` (Notus metadata ingestion).

The Python module is shallowly embedded: CSV files become lists of lines,
`ast.literal_eval` becomes an executable parser into `PyLit`, exceptions
become `Except PyErr`, and the external collaborators (settings provider,
cache service, SHA-256) become components of a `ScanEnv` record.
-/

set_option maxRecDepth 4096

namespace Notus

/-- Values producible by `ast.literal_eval`: strings, ints, floats (kept as
their lexeme, since no arithmetic is ever performed on them), booleans,
`None`, lists, tuples, dicts and sets. -/
inductive PyLit where
  | str (s : String)
  | int (n : Int)
  | float (raw : String)
  | bool (b : Bool)
  | noneV
  | list (xs : List PyLit)
  | tuple (xs : List PyLit)
  | dict (ps : List (PyLit × PyLit))
  | set (xs : List PyLit)
deriving Repr

mutual

def pyBeq : PyLit → PyLit → Bool
  | .str a, .str b => a == b
  | .int a, .int b => a == b
  | .float a, .float b => a == b
  | .bool a, .bool b => a == b
  | .noneV, .noneV => true
  | .list a, .list b => pyBeqList a b
  | .tuple a, .tuple b => pyBeqList a b
  | .dict a, .dict b => pyBeqPairs a b
  | .set a, .set b => pyBeqList a b
  | _, _ => false

def pyBeqList : List PyLit → List PyLit → Bool
  | [], [] => true
  | a :: as, b :: bs => pyBeq a b && pyBeqList as bs
  | _, _ => false

def pyBeqPairs : List (PyLit × PyLit) → List (PyLit × PyLit) → Bool
  | [], [] => true
  | (k1, v1) :: as, (k2, v2) :: bs => pyBeq k1 k2 && pyBeq v1 v2 && pyBeqPairs as bs
  | _, _ => false

end


/-- The Python exception kinds that the module can raise or catch. -/
inductive PyErr where
  | valueError
  | typeError
  | keyError
  | attributeError
  | unboundLocalError
  | syntaxError
deriving DecidableEq, Repr

/-- A single-quote character as a string (used to build Python literals). -/
def sq : String := String.mk ['\x27']

def isWsChar (c : Char) : Bool := c = ' ' || c = '\n' || c = '\t' || c = '\r'

def skipWs : List Char → List Char
  | [] => []
  | c :: cs => if isWsChar c then skipWs cs else c :: cs

/-- Body of a quoted string literal, after the opening quote `q`. -/
def parseStrBody (q : Char) : Nat → List Char → Option (String × List Char)
  | 0, _ => none
  | _, [] => none
  | fuel+1, c :: cs =>
    if c = q then some ("", cs)
    else if c = '\\' then
      match cs with
      | [] => none
      | e :: cs2 =>
        let ec := if e = 'n' then '\n' else if e = 't' then '\t'
                  else if e = 'r' then '\r' else e
        match parseStrBody q fuel cs2 with
        | none => none
        | some (s, rest) => some (String.mk (ec :: s.data), rest)
    else
      match parseStrBody q fuel cs with
      | none => none
      | some (s, rest) => some (String.mk (c :: s.data), rest)

def digitsOf : List Char → (List Char × List Char)
  | [] => ([], [])
  | c :: cs =>
    if c.isDigit then
      let (d, r) := digitsOf cs
      (c :: d, r)
    else ([], c :: cs)

def natOfDigits (ds : List Char) : Nat :=
  ds.foldl (fun n c => n * 10 + (c.toNat - 48)) 0

/-- Numeric literal: an int, or a float kept as its raw lexeme. -/
def parseNum (input : List Char) : Option (PyLit × List Char) :=
  let (ds, r) := digitsOf input
  if ds.isEmpty then none
  else
    match r with
    | '.' :: r2 =>
      let (fs, r3) := digitsOf r2
      some (.float (String.mk (ds ++ '.' :: fs)), r3)
    | _ => some (.int (natOfDigits ds), r)

def negateLit : PyLit → Option PyLit
  | .int n => some (.int (-n))
  | .float raw => some (.float ("-" ++ raw))
  | _ => none

/-- Consume an exact keyword and check no identifier character follows. -/
def matchWord (w : List Char) (input : List Char) : Option (List Char) :=
  match w, input with
  | [], rest =>
    match rest with
    | [] => some []
    | c :: _ => if c.isAlphanum || c = '_' then none else some rest
  | p :: ps, c :: cs => if c = p then matchWord ps cs else none
  | _ :: _, [] => none

/-- Insert into a dict's pair list with Python `dict` semantics: an existing
key keeps its position but takes the new value; a new key is appended. -/
def dictInsert (ps : List (PyLit × PyLit)) (k v : PyLit) : List (PyLit × PyLit) :=
  if ps.any (fun p => pyBeq p.1 k) then
    ps.map (fun p => if pyBeq p.1 k then (k, v) else p)
  else ps ++ [(k, v)]

def dictDedup (ps : List (PyLit × PyLit)) : List (PyLit × PyLit) :=
  ps.foldl (fun acc p => dictInsert acc p.1 p.2) []

def setInsert (xs : List PyLit) (v : PyLit) : List PyLit :=
  if xs.any (fun x => pyBeq x v) then xs else xs ++ [v]

def setDedup (xs : List PyLit) : List PyLit :=
  xs.foldl setInsert []

mutual

/-- Recursive-descent parser for Python literal expressions (the fragment
`ast.literal_eval` accepts), fueled for termination. -/
def parseVal : Nat → List Char → Option (PyLit × List Char)
  | 0, _ => none
  | fuel+1, input =>
    match skipWs input with
    | [] => none
    | c :: cs =>
      if c = '\x27' || c = '"' then
        match parseStrBody c (fuel+1) cs with
        | some (s, r) => some (.str s, r)
        | none => none
      else if c = '[' then
        match parseElems fuel ']' cs with
        | some (xs, r) => some (.list xs, r)
        | none => none
      else if c = '(' then
        match skipWs cs with
        | ')' :: r => some (.tuple [], r)
        | rest =>
          match parseVal fuel rest with
          | none => none
          | some (v, r1) =>
            match skipWs r1 with
            | ')' :: r2 => some (v, r2)
            | ',' :: r2 =>
              match skipWs r2 with
              | ')' :: r3 => some (.tuple [v], r3)
              | r2a =>
                match parseElems fuel ')' r2a with
                | some (xs, r3) => some (.tuple (v :: xs), r3)
                | none => none
            | _ => none
      else if c = '\x7b' then
        match skipWs cs with
        | '\x7d' :: r => some (.dict [], r)
        | rest =>
          match parseVal fuel rest with
          | none => none
          | some (k, r1) =>
            match skipWs r1 with
            | ':' :: r2 =>
              match parseVal fuel r2 with
              | none => none
              | some (v, r3) =>
                match skipWs r3 with
                | '\x7d' :: r4 => some (.dict (dictDedup [(k, v)]), r4)
                | ',' :: r4 =>
                  match parsePairs fuel r4 with
                  | some (ps, r5) => some (.dict (dictDedup ((k, v) :: ps)), r5)
                  | none => none
                | _ => none
            | '\x7d' :: r2 => some (.set (setDedup [k]), r2)
            | ',' :: r2 =>
              match parseElems fuel '\x7d' r2 with
              | some (xs, r3) => some (.set (setDedup (k :: xs)), r3)
              | none => none
            | _ => none
      else if c = '-' then
        match parseNum (skipWs cs) with
        | some (v, r) =>
          match negateLit v with
          | some v2 => some (v2, r)
          | none => none
        | none => none
      else if c = '+' then
        match parseNum (skipWs cs) with
        | some (v, r) => some (v, r)
        | none => none
      else if c.isDigit || c = '.' then
        parseNum (c :: cs)
      else
        match matchWord ['T', 'r', 'u', 'e'] (c :: cs) with
        | some r => some (.bool true, r)
        | none =>
          match matchWord ['F', 'a', 'l', 's', 'e'] (c :: cs) with
          | some r => some (.bool false, r)
          | none =>
            match matchWord ['N', 'o', 'n', 'e'] (c :: cs) with
            | some r => some (.noneV, r)
            | none => none

/-- Comma-separated values up to a closing bracket, trailing comma allowed. -/
def parseElems : Nat → Char → List Char → Option (List PyLit × List Char)
  | 0, _, _ => none
  | fuel+1, close, input =>
    match skipWs input with
    | [] => none
    | c :: cs =>
      if c = close then some ([], cs)
      else
        match parseVal fuel (c :: cs) with
        | none => none
        | some (v, r1) =>
          match skipWs r1 with
          | [] => none
          | c2 :: r2 =>
            if c2 = close then some ([v], r2)
            else if c2 = ',' then
              match parseElems fuel close r2 with
              | some (xs, r3) => some (v :: xs, r3)
              | none => none
            else none

/-- Comma-separated `key : value` pairs up to `}`, trailing comma allowed. -/
def parsePairs : Nat → List Char → Option (List (PyLit × PyLit) × List Char)
  | 0, _ => none
  | fuel+1, input =>
    match skipWs input with
    | [] => none
    | c :: cs =>
      if c = '\x7d' then some ([], cs)
      else
        match parseVal fuel (c :: cs) with
        | none => none
        | some (k, r1) =>
          match skipWs r1 with
          | ':' :: r2 =>
            match parseVal fuel r2 with
            | none => none
            | some (v, r3) =>
              match skipWs r3 with
              | [] => none
              | c4 :: r4 =>
                if c4 = '\x7d' then some ([(k, v)], r4)
                else if c4 = ',' then
                  match parsePairs fuel r4 with
                  | some (ps, r5) => some ((k, v) :: ps, r5)
                  | none => none
                else none
          | _ => none

end

/-- Remaining elements of a top-level bare tuple (`1, 2` without parens). -/
def parseBareTail : Nat → List Char → Option (List PyLit)
  | 0, _ => none
  | fuel+1, input =>
    match skipWs input with
    | [] => some []
    | cs =>
      match parseVal fuel cs with
      | none => none
      | some (v, r) =>
        match skipWs r with
        | [] => some [v]
        | ',' :: r2 =>
          match parseBareTail fuel r2 with
          | some vs => some (v :: vs)
          | none => none
        | _ => none

/-- Model of `ast.literal_eval` restricted to inputs on which it succeeds:
`none` covers both its `ValueError` and `SyntaxError` outcomes, which are
told apart separately by `pyExprSyntaxOk`. -/
def literalEval (s : String) : Option PyLit :=
  let fuel := 2 * s.length + 8
  match parseVal fuel s.data with
  | none => none
  | some (v, rest) =>
    match skipWs rest with
    | [] => some v
    | ',' :: r2 =>
      match parseBareTail fuel r2 with
      | some vs => some (.tuple (v :: vs))
      | none => none
    | _ => none

/-! Classifier telling `SyntaxError` apart from `ValueError`: when
`ast.literal_eval` fails, it raises `ValueError` on input that is
syntactically a Python expression but not a literal, and `SyntaxError` on
input that does not even tokenize/parse as an expression.  The classifier
is a loose expression recognizer: a tokenizer plus an operand/operator
adjacency automaton with a bracket stack. -/

inductive PTok where
  | ident (s : String)
  | numTok
  | strTok
  | openB (c : Char)
  | closeB (c : Char)
  | comma
  | colon
  | opTok
deriving Repr

def isOpChar (c : Char) : Bool :=
  c = '+' || c = '-' || c = '*' || c = '/' || c = '%' || c = '<' || c = '>' ||
  c = '=' || c = '!' || c = '&' || c = '|' || c = '^' || c = '~' || c = '@'

def numLexemeEnd : List Char → List Char
  | [] => []
  | c :: cs =>
    if c.isAlphanum || c = '.' || c = '_' then numLexemeEnd cs else c :: cs

def identLexeme : List Char → (List Char × List Char)
  | [] => ([], [])
  | c :: cs =>
    if c.isAlphanum || c = '_' then
      let (w, r) := identLexeme cs
      (c :: w, r)
    else ([], c :: cs)

def lexToks : Nat → List Char → Option (List PTok)
  | 0, _ => none
  | _, [] => some []
  | fuel+1, c :: cs =>
    if isWsChar c then lexToks fuel cs
    else if c = '\x27' || c = '"' then
      match parseStrBody c (fuel+1) cs with
      | some (_, r) =>
        match lexToks fuel r with
        | some ts => some (.strTok :: ts)
        | none => none
      | none => none
    else if c.isDigit then
      match lexToks fuel (numLexemeEnd cs) with
      | some ts => some (.numTok :: ts)
      | none => none
    else if c = '.' then
      match cs with
      | d :: _ =>
        if d.isDigit then
          match lexToks fuel (numLexemeEnd cs) with
          | some ts => some (.numTok :: ts)
          | none => none
        else
          match lexToks fuel cs with
          | some ts => some (.opTok :: ts)
          | none => none
      | [] => some [.opTok]
    else if c.isAlpha || c = '_' then
      let (w, r) := identLexeme (c :: cs)
      match lexToks fuel r with
      | some ts => some (.ident (String.mk w) :: ts)
      | none => none
    else if c = '(' || c = '[' || c = '\x7b' then
      match lexToks fuel cs with
      | some ts => some (.openB c :: ts)
      | none => none
    else if c = ')' || c = ']' || c = '\x7d' then
      match lexToks fuel cs with
      | some ts => some (.closeB c :: ts)
      | none => none
    else if c = ',' then
      match lexToks fuel cs with
      | some ts => some (.comma :: ts)
      | none => none
    else if c = ':' then
      match lexToks fuel cs with
      | some ts => some (.colon :: ts)
      | none => none
    else if isOpChar c then
      match lexToks fuel cs with
      | some ts => some (.opTok :: ts)
      | none => none
    else none

def wordOp (s : String) : Bool :=
  s = "and" || s = "or" || s = "in" || s = "is" || s = "if" || s = "else" || s = "not"

def bracketsMatch (o c : Char) : Bool :=
  (o = '(' && c = ')') || (o = '[' && c = ']') || (o = '\x7b' && c = '\x7d')

/-- Operand/operator automaton: `after` records whether the last token
completed an operand. -/
def exprScan : List PTok → List Char → Bool → Bool
  | [], stack, after => stack.isEmpty && after
  | t :: ts, stack, after =>
    match t with
    | .ident s =>
      if after then (if wordOp s then exprScan ts stack false else false)
      else if s = "not" then exprScan ts stack false
      else exprScan ts stack true
    | .numTok => if after then false else exprScan ts stack true
    | .strTok => if after then false else exprScan ts stack true
    | .opTok => exprScan ts stack false
    | .comma => if after then exprScan ts stack false else false
    | .colon =>
      if stack.isEmpty then false
      else if after then exprScan ts stack false else false
    | .openB c => exprScan ts (c :: stack) false
    | .closeB c =>
      match stack with
      | [] => false
      | o :: st => if bracketsMatch o c then exprScan ts st true else false

/-- Whether a failed `literalEval` input still parses as a Python
expression (so `ast.literal_eval` raises `ValueError`, not `SyntaxError`). -/
def pyExprSyntaxOk (s : String) : Bool :=
  match lexToks (s.length + 8) s.data with
  | none => false
  | some [] => false
  | some ts => exprScan ts [] false

/-- `ast.literal_eval` with its failure mode split into the exception kinds
it raises. -/
def literalEvalE (s : String) : Except PyErr PyLit :=
  match literalEval s with
  | some v => .ok v
  | none => if pyExprSyntaxOk s then .error .valueError else .error .syntaxError

/-! Python runtime helpers: `len`, truthiness, `str()`, iteration,
`", ".join`, `dict.popitem`, subscript and `dict.update`. -/

/-- Python `len()`: `none` is the `TypeError` case. -/
def pyLen : PyLit → Option Nat
  | .str s => some s.length
  | .list xs => some xs.length
  | .tuple xs => some xs.length
  | .dict ps => some ps.length
  | .set xs => some xs.length
  | _ => none

def pyTruthy : PyLit → Bool
  | .str s => s ≠ ""
  | .int n => n ≠ 0
  | .float raw => raw.data.any (fun c => '1' ≤ c && c ≤ '9')
  | .bool b => b
  | .noneV => false
  | .list xs => !xs.isEmpty
  | .tuple xs => !xs.isEmpty
  | .dict ps => !ps.isEmpty
  | .set xs => !xs.isEmpty

mutual

/-- Python `str()` as used by f-string interpolation. -/
def pyStr : PyLit → String
  | .str s => s
  | v => pyRepr v

/-- Python `repr()` (string escaping and quote choice not modelled). -/
def pyRepr : PyLit → String
  | .str s => sq ++ s ++ sq
  | .int n => toString n
  | .float raw => raw
  | .bool b => if b then "True" else "False"
  | .noneV => "None"
  | .list xs => "[" ++ joinReprs xs ++ "]"
  | .tuple [x] => "(" ++ pyRepr x ++ ",)"
  | .tuple xs => "(" ++ joinReprs xs ++ ")"
  | .dict ps => "\x7b" ++ joinPairReprs ps ++ "\x7d"
  | .set [] => "set()"
  | .set xs => "\x7b" ++ joinReprs xs ++ "\x7d"

def joinReprs : List PyLit → String
  | [] => ""
  | [x] => pyRepr x
  | x :: xs => pyRepr x ++ ", " ++ joinReprs xs

def joinPairReprs : List (PyLit × PyLit) → String
  | [] => ""
  | [(k, v)] => pyRepr k ++ ": " ++ pyRepr v
  | (k, v) :: ps => pyRepr k ++ ": " ++ pyRepr v ++ ", " ++ joinPairReprs ps

end

/-- Python iteration over a value (`TypeError` when not iterable). -/
def pyIter : PyLit → Except PyErr (List PyLit)
  | .list xs => .ok xs
  | .tuple xs => .ok xs
  | .set xs => .ok xs
  | .dict ps => .ok (ps.map Prod.fst)
  | .str s => .ok (s.data.map (fun c => .str (String.mk [c])))
  | _ => .error .typeError

/-- Python `", ".join(v)`: `TypeError` when `v` is not iterable or an
element is not a string. -/
def pyJoinComma (v : PyLit) : Except PyErr String := do
  let elems ← pyIter v
  let strs ← elems.mapM (fun e =>
    match e with
    | PyLit.str s => Except.ok s
    | _ => Except.error PyErr.typeError)
  return String.intercalate ", " strs

/-- Python `d.popitem()`: last entry of a dict; `KeyError` on an empty
dict, `AttributeError` on a non-dict. -/
def pyPopitem : PyLit → Except PyErr (PyLit × PyLit)
  | .dict [] => .error .keyError
  | .dict (p :: ps) => .ok (ps.getLastD p)
  | _ => .error .attributeError

/-- Python `gen[k]` for a string key `k`, as used on the general-metadata
object: dict lookup (`KeyError` if missing), `TypeError` on non-dicts. -/
def pySubscript (gen : PyLit) (k : String) : Except PyErr PyLit :=
  match gen with
  | .dict ps =>
    match ps.find? (fun p => pyBeq p.1 (.str k)) with
    | some p => .ok p.2
    | none => .error .keyError
  | _ => .error .typeError

/-- One element of a `dict.update(...)` sequence viewed as a key/value
pair (Python accepts any 2-element iterable). -/
def kvOf : PyLit → Except PyErr (PyLit × PyLit)
  | .list [k, v] => .ok (k, v)
  | .tuple [k, v] => .ok (k, v)
  | .set [k, v] => .ok (k, v)
  | .str s =>
    match s.data with
    | [a, b] => .ok (.str (String.mk [a]), .str (String.mk [b]))
    | _ => .error .valueError
  | .dict [k, v] => .ok (k.1, v.1)
  | .list _ | .tuple _ | .set _ | .dict _ => .error .valueError
  | _ => .error .typeError

def dictUpdatePairs (acc : List (PyLit × PyLit)) (ps : List (PyLit × PyLit)) :
    List (PyLit × PyLit) :=
  ps.foldl (fun a p => dictInsert a p.1 p.2) acc

/-- Python `acc.update(v)` on a dict `acc`. -/
def pyDictUpdate (acc : List (PyLit × PyLit)) (v : PyLit) :
    Except PyErr (List (PyLit × PyLit)) :=
  match v with
  | .dict ps => .ok (dictUpdatePairs acc ps)
  | .list xs | .tuple xs | .set xs => do
    let kvs ← xs.mapM kvOf
    return dictUpdatePairs acc kvs
  | .str s => do
    let kvs ← (s.data.map (fun c => PyLit.str (String.mk [c]))).mapM kvOf
    return dictUpdatePairs acc kvs
  | _ => .error .typeError

/-! String and file-shape utilities mirroring the Python runtime: text-mode
line iteration (lines keep their trailing newline), `str.strip(chars)`,
and the blank-line/`,`-splitting behaviour of the `csv` module on the
simple unquoted rows this feed uses. -/

def splitLinesGo : List Char → List Char → List String
  | acc, [] => if acc.isEmpty then [] else [String.mk acc.reverse]
  | acc, c :: cs =>
    if c = '\n' then String.mk ('\n' :: acc).reverse :: splitLinesGo [] cs
    else splitLinesGo (c :: acc) cs

/-- Iterating an open text file yields its lines, each keeping `\n`. -/
def splitLinesKeep (s : String) : List String := splitLinesGo [] s.data

/-- Python `s.startswith(pre)`. -/
def strStartsWith (s pre : String) : Bool := pre.data.isPrefixOf s.data

def stripNewline (s : String) : String :=
  let r := s.data.reverse
  let r1 := if r.head? = some '\n' then r.tail else r
  let r2 := if r1.head? = some '\r' then r1.tail else r1
  String.mk r2.reverse

def splitOnCommaGo : List Char → List Char → List String
  | acc, [] => [String.mk acc.reverse]
  | acc, c :: cs =>
    if c = ',' then String.mk acc.reverse :: splitOnCommaGo [] cs
    else splitOnCommaGo (c :: acc) cs

/-- Split a string on `,` (the `csv` module's cell split for the simple
unquoted rows this feed uses). -/
def splitOnComma (s : String) : List String := splitOnCommaGo [] s.data

/-- Python `s.strip(cs)`: remove any characters of the set `cs` from both
ends of `s`. -/
def stripChars (s : String) (cs : String) : String :=
  let l := s.data.dropWhile (fun c => cs.data.contains c)
  String.mk (l.reverse.dropWhile (fun c => cs.data.contains c)).reverse

/-- One CSV line as the `csv` module row: a blank line is the empty row,
otherwise the comma-separated cells (quoting is not used by this feed). -/
def csvRow (l : String) : List String :=
  let s := stripNewline l
  if s = "" then [] else splitOnComma s

/-! The embedded module: constants and methods of
`ospd_openvas/notus/metadata.py`, in source order. -/

def EXPECTED_FIELD_NAMES_LIST : List String :=
  ["OID", "TITLE", "CREATION_DATE", "LAST_MODIFICATION", "SOURCE_PKGS",
   "ADVISORY_ID", "SEVERITY_ORIGIN", "SEVERITY_DATE", "SEVERITY_VECTOR",
   "ADVISORY_XREF", "DESCRIPTION", "INSIGHT", "AFFECTED", "CVE_LIST",
   "BINARY_PACKAGES_FOR_RELEASES", "XREFS", "FILENAME"]

def METADATA_DIRECTORY_NAME : String := "notus_metadata"

def SCRIPT_CATEGORY : String := "3"
def SCRIPT_TIMEOUT : String := "0"
def BIDS : String := ""
def REQUIRED_KEYS : String := ""
def MANDATORY_KEYS : String := ""
def EXCLUDED_KEYS : String := ""
def REQUIRED_UDP_PORTS : String := ""
def REQUIRED_PORTS : String := ""
def DEPENDENCIES : String := ""

/-- A row produced by `csv.DictReader`: field name to cell value, where a
cell missing from a short row is `none` (Python `None`). -/
abbrev Advisory := List (String × Option String)

/-- A cache write: the Redis key `nvt:<OID>` and the 15-element metadata
list. -/
abbrev CacheWrite := String × List String

/-- A CSV file as discovered on disk. -/
structure NotusFile where
  path : String
  name : String
  content : String
deriving DecidableEq, Repr

/-- The handler's collaborators and settings: the `Openvas` settings
provider, the `INSTALL_PREFIX` environment variable, the discovered CSV
files, and the NVTI cache's checksum lookup together with SHA-256 (kept
abstract, applied to the file's bytes). -/
structure ScanEnv where
  plugins_folder : Option String
  nasl_no_signature_check : Bool
  table_driven_lsc : Bool
  files : List NotusFile
  file_checksum : String → Option String
  sha256hex : List Nat → String

def fileBytes (f : NotusFile) : List Nat := f.content.data.map Char.toNat

/-- Split a byte list into blocks of 4096 bytes (the streaming read loop
of `is_checksum_correct`). -/
def chunks4096 : List Nat → List (List Nat)
  | [] => []
  | x :: xs => (x :: xs).take 4096 :: chunks4096 ((x :: xs).drop 4096)
termination_by l => l.length
decreasing_by
  simp only [List.length_drop, List.length_cons]
  omega

/-- `NotusMetadataHandler.metadata_path`: resolve the metadata directory
from the constructor override, the scanner's `plugins_folder` setting and
the `INSTALL_PREFIX` environment variable. -/
def metadata_path (pathArg pluginsFolder installPfx : Option String) : String :=
  match pathArg with
  | some p => p
  | none =>
    if (pluginsFolder.getD "") ≠ "" then
      (pluginsFolder.getD "") ++ "/" ++ METADATA_DIRECTORY_NAME ++ "/"
    else if (installPfx.getD "") ≠ "" then
      (installPfx.getD "") ++ "/var/lib/openvas/plugins/" ++ METADATA_DIRECTORY_NAME ++ "/"
    else "/opt/greenbone/feed/plugins/" ++ METADATA_DIRECTORY_NAME ++ "/"

/-- `NotusMetadataHandler._check_field_names_lsc`, applied to
`reader.fieldnames` (which is `None` when the file held no further row). -/
def _check_field_names_lsc (fieldNames : Option (List String)) : Bool :=
  match fieldNames with
  | none => false
  | some l => decide (EXPECTED_FIELD_NAMES_LIST = l)

/-- One field check of `_check_advisory_dict`: `.ok false` is `return
False`, `.ok true` continues, `.error` is an uncaught exception (only
`ValueError` and `TypeError` are caught around the `SOURCE_PKGS` parse;
`SyntaxError` from `ast.literal_eval` escapes). -/
def checkFieldStep (k : String) (v : Option String) : Except PyErr Bool :=
  match v with
  | none => .ok false
  | some s =>
    if s = "" then .ok false
    else if k = "SOURCE_PKGS" then
      match literalEval s with
      | some lit =>
        match pyLen lit with
        | some n => .ok (decide (n ≠ 0))
        | none => .ok false
      | none => if pyExprSyntaxOk s then .ok false else .error .syntaxError
    else .ok true

/-- `NotusMetadataHandler._check_advisory_dict`. -/
def _check_advisory_dict : Advisory → Except PyErr Bool
  | [] => .ok true
  | (k, v) :: rest => do
    let c ← checkFieldStep k v
    if c then _check_advisory_dict rest else return false

/-- `NotusMetadataHandler._format_xrefs` after the xrefs object has been
iterated into elements. -/
def _format_xrefs (advisoryXref : String) (xrefsList : List PyLit) : String :=
  String.intercalate ", "
    (("URL:" ++ advisoryXref) :: xrefsList.map (fun u => "URL:" ++ pyStr u))

/-- `NotusMetadataHandler.is_checksum_correct`: `True` when signature
checking is disabled; otherwise the streamed SHA-256 of the file must
equal the checksum fetched from the cache (a missing checksum fails the
comparison, it is not an error). -/
def is_checksum_correct (env : ScanEnv) (f : NotusFile) : Bool :=
  if !env.nasl_no_signature_check then
    let computed := env.sha256hex (chunks4096 (fileBytes f)).flatten
    decide (some computed = env.file_checksum f.path)
  else true

/-- Python dict access `advisory_dict[k]` followed by use in an f-string:
a present-but-`None` value renders as `"None"`, an absent key is a
`KeyError`. -/
def advGetE (adv : Advisory) (k : String) : Except PyErr String :=
  match adv.find? (fun p => p.1 == k) with
  | none => .error .keyError
  | some p =>
    match p.2 with
    | none => .ok "None"
    | some s => .ok s

/-- The `tags_string` template of `upload_lsc_from_csv_reader`. -/
def tagsTemplate (so sd sv lm cd su vd ins aff sol solt qod : String) : String :=
  "severity_origin=" ++ so ++ "|severity_date=" ++ sd ++
  "|severity_vector=" ++ sv ++ "|last_modification=" ++ lm ++
  "|creation_date=" ++ cd ++ "|summary=" ++ su ++
  "|vuldetect=" ++ vd ++ "|insight=" ++ ins ++
  "|affected=" ++ aff ++ "|solution=" ++ sol ++
  "|solution_type=" ++ solt ++ "|qod_type=" ++ qod

/-- The per-row body of `upload_lsc_from_csv_reader` that builds
`advisory_metadata_list` (everything between the `OID` lookup and the
cache write), in the source's evaluation order. -/
def transform_advisory (adv : Advisory) (gen : PyLit) (family : String) :
    Except PyErr (List String) := do
  let filename ← advGetE adv "FILENAME"
  let so ← advGetE adv "SEVERITY_ORIGIN"
  let sd ← advGetE adv "SEVERITY_DATE"
  let sv ← advGetE adv "SEVERITY_VECTOR"
  let lm ← advGetE adv "LAST_MODIFICATION"
  let cd ← advGetE adv "CREATION_DATE"
  let su ← advGetE adv "DESCRIPTION"
  let vd ← pySubscript gen "VULDETECT"
  let ins ← advGetE adv "INSIGHT"
  let aff ← advGetE adv "AFFECTED"
  let sol ← pySubscript gen "SOLUTION"
  let solt ← pySubscript gen "SOLUTION_TYPE"
  let qod ← pySubscript gen "QOD_TYPE"
  let cveRaw ← advGetE adv "CVE_LIST"
  let cveLit ← literalEvalE cveRaw
  let cveStr ← pyJoinComma cveLit
  let axr ← advGetE adv "ADVISORY_XREF"
  let xrRaw ← advGetE adv "XREFS"
  let xrLit ← literalEvalE xrRaw
  let xrElems ← pyIter xrLit
  let title ← advGetE adv "TITLE"
  return ["notus_metadata/" ++ filename,
          REQUIRED_KEYS, MANDATORY_KEYS, EXCLUDED_KEYS,
          REQUIRED_UDP_PORTS, REQUIRED_PORTS, DEPENDENCIES,
          tagsTemplate so sd sv lm cd su (pyStr vd) ins aff
            (pyStr sol) (pyStr solt) (pyStr qod),
          cveStr, BIDS, _format_xrefs axr xrElems,
          SCRIPT_CATEGORY, SCRIPT_TIMEOUT, family, title]

/-- Modelled from the spec: `NVTICache.add_vt_to_cache`
(`ospd_openvas/nvticache.py`, not under `src/`) accepts a record, raising
`OspdOpenvasError` otherwise, exactly when the record is a list of 15
fields ("a write is rejected by the cache only if the record does not
have exactly 15 fields"). -/
def add_vt_to_cache_accepts (fields : List String) : Bool :=
  fields.length == 15

/-- The advisory loop of `upload_lsc_from_csv_reader`, with explicit
`loaded`/`total` counters and the accumulated cache writes. -/
def upload_go (family : String) (gen : PyLit) :
    List Advisory → Nat → Nat → List CacheWrite →
    Except PyErr (List CacheWrite × Bool)
  | [], loaded, total, ws => .ok (ws, loaded == total)
  | adv :: rest, loaded, total, ws =>
    match _check_advisory_dict adv with
    | .error e => .error e
    | .ok isCorrect =>
      if !isCorrect then upload_go family gen rest loaded (total + 1) ws
      else
        match advGetE adv "OID" with
        | .error e => .error e
        | .ok oid =>
          match transform_advisory adv gen family with
          | .error e => .error e
          | .ok fields =>
            if add_vt_to_cache_accepts fields then
              upload_go family gen rest (loaded + 1) (total + 1)
                (ws ++ [("nvt:" ++ oid, fields)])
            else
              upload_go family gen rest loaded (total + 1) ws

/-- `NotusMetadataHandler.upload_lsc_from_csv_reader`: returns the cache
writes performed and whether every row was loaded (`loaded == total`). -/
def upload_lsc_from_csv_reader (_fileName family : String) (gen : PyLit)
    (advs : List Advisory) : Except PyErr (List CacheWrite × Bool) :=
  upload_go family gen advs 0 0 []

/-- First line starting with `"link = "`, and the lines after it. -/
def findLinkSplit : List String → Option (String × List String)
  | [] => none
  | l :: ls => if strStartsWith l "link = " then some (l, ls) else findLinkSplit ls

/-- `NotusMetadataHandler.parse_family_driver_link`: when no line starts
with `"link = "` the local `link` is never assigned, so the trailing `if
link:` raises `UnboundLocalError`; otherwise the found line is stripped
of the characters of `"link = "` and parsed as a literal. -/
def parse_family_driver_link (lines : List String) : Except PyErr (Option PyLit) :=
  match findLinkSplit lines with
  | none => .error .unboundLocalError
  | some (link, _) =>
    if link ≠ "" then
      match literalEvalE (stripChars link "link = ") with
      | .ok v => .ok (some v)
      | .error e => .error e
    else .ok none

/-- The scan for the general-metadata line in `update_metadata`: the first
line starting with `{` is parsed as a literal (exceptions escape), and the
remaining lines feed the `DictReader`; without such a line the file is
exhausted and the initial empty dict is kept. -/
def scanGeneral : List String → Except PyErr PyLit × List String
  | [] => (.ok (.dict []), [])
  | l :: ls =>
    if strStartsWith l "\x7b" then (literalEvalE l, ls)
    else scanGeneral ls

/-- The header phase of `update_metadata` for one open file: the
family/driver link (via `parse_family_driver_link` and `popitem`), the
general-metadata dict, and the lines left for the `DictReader`. -/
def read_file_header (content : String) :
    Except PyErr (String × PyLit × List String) :=
  let lines := splitLinesKeep content
  match findLinkSplit lines with
  | none => .error .unboundLocalError
  | some (link, rest) =>
    if link = "" then .error .attributeError
    else
      match literalEvalE (stripChars link "link = ") with
      | .error e => .error e
      | .ok fd =>
        match pyPopitem fd with
        | .error e => .error e
        | .ok (famK, _) =>
          match scanGeneral rest with
          | (.error e, _) => .error e
          | (.ok gen, rest2) => .ok (pyStr famK, gen, rest2)

/-- `csv.DictReader` row construction: cells are matched to field names
positionally, a short row leaves the trailing fields at `None` (the
default `restval`); extra cells only land under the `None` restkey, which
no later lookup or check distinguishes, so they are dropped. -/
def mkAdvisory : List String → List String → Advisory
  | [], _ => []
  | h :: hs, [] => (h, none) :: mkAdvisory hs []
  | h :: hs, c :: cs => (h, some c) :: mkAdvisory hs cs

/-- The per-file body of `update_metadata`'s loop: checksum gate, header
phase, field-name check, then the row loop. A file that fails the
checksum or the field-name check contributes no writes (`continue`).
`DictReader.fieldnames` takes the next row as-is (possibly the empty row
of a blank line, or `None` at end of file), while the data-row iteration
skips empty rows. -/
def process_csv_file (env : ScanEnv) (f : NotusFile) :
    Except PyErr (List CacheWrite) :=
  if !is_checksum_correct env f then .ok []
  else
    match read_file_header f.content with
    | .error e => .error e
    | .ok (family, gen, rest2) =>
      match rest2.map csvRow with
      | [] => .ok []
      | header :: dataRows =>
        if !_check_field_names_lsc (some header) then .ok []
        else
          match upload_lsc_from_csv_reader f.name family gen
              ((dataRows.filter (fun r => r ≠ [])).map (mkAdvisory header)) with
          | .error e => .error e
          | .ok (ws, _) => .ok ws

/-- The file loop of `update_metadata`, accumulating cache writes in file
order; a file's uncaught exception terminates the run. -/
def update_metadata_go (env : ScanEnv) : List NotusFile → Except PyErr (List CacheWrite)
  | [] => .ok []
  | f :: fs => do
    let ws ← process_csv_file env f
    let rest ← update_metadata_go env fs
    return ws ++ rest

/-- `NotusMetadataHandler.update_metadata`: a no-op unless the
`table_driven_lsc` setting is truthy; otherwise processes every
discovered CSV file in order. The returned list is the sequence of cache
writes performed. -/
def update_metadata (env : ScanEnv) : Except PyErr (List CacheWrite) :=
  if !env.table_driven_lsc then .ok []
  else update_metadata_go env env.files

/-- The file loop of `get_family_driver_linkers`. -/
def gfdl_go (env : ScanEnv) :
    List NotusFile → List (PyLit × PyLit) → Except PyErr (List (PyLit × PyLit))
  | [], acc => .ok acc
  | f :: fs, acc =>
    if !is_checksum_correct env f then gfdl_go env fs acc
    else
      match parse_family_driver_link (splitLinesKeep f.content) with
      | .error e => .error e
      | .ok none => gfdl_go env fs acc
      | .ok (some d) =>
        if pyTruthy d then
          match pyDictUpdate acc d with
          | .error e => .error e
          | .ok acc2 => gfdl_go env fs acc2
        else gfdl_go env fs acc

/-- `NotusMetadataHandler.get_family_driver_linkers`: accumulate each
verified file's family/driver dict, ignoring the `table_driven_lsc`
gate. -/
def get_family_driver_linkers (env : ScanEnv) :
    Except PyErr (List (PyLit × PyLit)) :=
  gfdl_go env env.files []

/-! Claim-level vocabulary: predicates used to state the spec's claims
about field values, and the spec-worded variant of the path resolution. -/

/-- Whether a string textually encodes a non-empty Python list literal. -/
def parsesAsNonEmptyList (s : String) : Bool :=
  match literalEval s with
  | some (.list xs) => !xs.isEmpty
  | _ => false

/-- Whether a string parses as a Python list literal at all. -/
def isListLiteral (s : String) : Bool :=
  match literalEval s with
  | some (.list _) => true
  | _ => false

/-- Whether a string parses as some Python literal whose `len()` is
defined and positive (what `_check_advisory_dict` actually requires of
`SOURCE_PKGS`). -/
def parsesWithPosLen (s : String) : Bool :=
  match literalEval s with
  | some lit =>
    match pyLen lit with
    | some n => decide (0 < n)
    | none => false
  | none => false

/-- The §4.5/C9 resolution chain exactly as the claim words it: the
`plugins_folder` tier applies whenever the setting is reported, with no
non-emptiness requirement (only the `INSTALL_PREFIX` tier demands
non-emptiness). For comparison against `metadata_path`. -/
def metadata_path_claim (pathArg pluginsFolder installPfx : Option String) : String :=
  match pathArg with
  | some p => p
  | none =>
    match pluginsFolder with
    | some pf => pf ++ "/" ++ METADATA_DIRECTORY_NAME ++ "/"
    | none =>
      if (installPfx.getD "") ≠ "" then
        (installPfx.getD "") ++ "/var/lib/openvas/plugins/" ++ METADATA_DIRECTORY_NAME ++ "/"
      else "/opt/greenbone/feed/plugins/" ++ METADATA_DIRECTORY_NAME ++ "/"

/-- Whether one advisory row ends up loaded by
`upload_lsc_from_csv_reader`: validation accepts it, its `OID` lookup
succeeds, its transformation succeeds, and the cache accepts the write. -/
def row_loaded (gen : PyLit) (family : String) (adv : Advisory) : Bool :=
  match _check_advisory_dict adv, advGetE adv "OID" with
  | Except.ok true, Except.ok _ =>
    match transform_advisory adv gen family with
    | Except.ok fields => add_vt_to_cache_accepts fields
    | _ => false
  | _, _ => false

/-- Whether an embedded computation returned normally (no Python
exception). -/
def isOkE : Except PyErr α → Bool
  | .ok _ => true
  | .error _ => false

/-! Concrete test data: advisory rows, CSV files and environments used by
the counterexamples and witnesses. -/

/-- A Python list literal with one single-quoted element. -/
def listLit (s : String) : String := "[" ++ sq ++ s ++ sq ++ "]"

/-- A `DictReader` row for the expected 17-field schema. -/
def advRow (vals : List String) : Advisory :=
  mkAdvisory EXPECTED_FIELD_NAMES_LIST vals

def gen0 : PyLit :=
  .dict [(.str "VULDETECT", .str "vd"), (.str "SOLUTION", .str "sol"),
         (.str "SOLUTION_TYPE", .str "st"), (.str "QOD_TYPE", .str "qt")]

/-- A fully valid advisory row. -/
def advGood : Advisory :=
  advRow ["1.1", "T", "cd", "lm", "[\"p\"]", "aid", "so", "sd", "sv",
          "http://x", "de", "in", "af", "[\"CVE-1\",\"CVE-2\"]", "bp",
          "[\"http://y\",\"http://z\"]", "fn.nasl"]

/-- A fully populated row with a chosen `SOURCE_PKGS` value. -/
def advSp (s : String) : Advisory :=
  advRow ["1.1", "T", "cd", "lm", s, "aid", "so", "sd", "sv", "http://x",
          "de", "in", "af", "[\"CVE-1\"]", "bp", "[\"u\"]", "fn.nasl"]

/-- A fully populated row whose `CVE_LIST` does not parse as a literal. -/
def advC2 : Advisory :=
  advRow ["2.2", "T2", "cd2", "lm2", listLit "p2", "aid2", "so2", "sd2",
          "sv2", "http://x2", "de2", "in2", "af2", "nope", "bp2",
          "[\"http://y2\"]", "f2.nasl"]

/-- Another fully populated row whose `CVE_LIST` does not parse. -/
def advC3 : Advisory :=
  advRow ["3.3", "T3", "cd3", "lm3", listLit "p3", "aid3", "so3", "sd3",
          "sv3", "http://x3", "de3", "in3", "af3", "invalid", "bp3",
          "[\"http://y3\"]", "f3.nasl"]

/-- The transformation of `advGood` with `gen0` and family `"Fam"`. -/
def transformedGood : List String :=
  ["notus_metadata/fn.nasl", "", "", "", "", "", "",
   "severity_origin=so|severity_date=sd|severity_vector=sv|last_modification=lm|creation_date=cd|summary=de|vuldetect=vd|insight=in|affected=af|solution=sol|solution_type=st|qod_type=qt",
   "CVE-1, CVE-2", "", "URL:http://x, URL:http://y, URL:http://z", "3", "0",
   "Fam", "T"]

/-- A well-formed CSV feed file: license line, `link = ` header, general
metadata, the expected field-name row, one valid data row and one data
row with an empty `OID`. -/
def goodContent : String :=
  "# Some license header\n" ++
  "link = \x7b" ++ sq ++ "Debian Local Security Checks" ++ sq ++ ": " ++
    sq ++ "1.3.6.1.4.1.25623.1.0.50000" ++ sq ++ "\x7d\n" ++
  "\x7b" ++ sq ++ "VULDETECT" ++ sq ++ ": " ++ sq ++ "Checks the package version." ++ sq ++ ", " ++
    sq ++ "SOLUTION" ++ sq ++ ": " ++ sq ++ "Update the package." ++ sq ++ ", " ++
    sq ++ "SOLUTION_TYPE" ++ sq ++ ": " ++ sq ++ "VendorFix" ++ sq ++ ", " ++
    sq ++ "QOD_TYPE" ++ sq ++ ": " ++ sq ++ "package" ++ sq ++ "\x7d\n" ++
  "OID,TITLE,CREATION_DATE,LAST_MODIFICATION,SOURCE_PKGS,ADVISORY_ID,SEVERITY_ORIGIN,SEVERITY_DATE,SEVERITY_VECTOR,ADVISORY_XREF,DESCRIPTION,INSIGHT,AFFECTED,CVE_LIST,BINARY_PACKAGES_FOR_RELEASES,XREFS,FILENAME\n" ++
  "1.0.1,Title One,2021-01-01,2021-02-01,[\"pkg1\"],DSA-1,NVD,2021-01-02,AV:N,http://adv/1,Desc,Insight,Affected,[\"CVE-2021-0001\"],[\"b1\"],[\"http://y\"],f1.nasl\n" ++
  ",Title Two,2021-01-01,2021-02-01,[\"pkg2\"],DSA-2,NVD,2021-01-02,AV:N,http://adv/2,Desc,Insight,Affected,[\"CVE-2021-0002\"],[\"b2\"],[\"http://z\"],f2.nasl\n"

def goodFile : NotusFile :=
  { path := "/feed/good.csv", name := "good.csv", content := goodContent }

/-- A CSV file with no `link = ` line at all. -/
def noLinkFile : NotusFile :=
  { path := "/feed/nolink.csv", name := "nolink.csv",
    content := "# header only\nOID,TITLE\n" }

/-- A minimal file whose only content is a `link = ` header line. -/
def mkLinkFile (p fam oid : String) : NotusFile :=
  { path := p, name := p,
    content := "link = \x7b" ++ sq ++ fam ++ sq ++ ": " ++ sq ++ oid ++ sq ++ "\x7d\n" }

/-- An environment with signature checking disabled and the given gate
setting and files. -/
def mkEnv (gate : Bool) (fs : List NotusFile) : ScanEnv :=
  { plugins_folder := none, nasl_no_signature_check := true,
    table_driven_lsc := gate, files := fs,
    file_checksum := fun _ => none, sha256hex := fun _ => "" }

def envG : ScanEnv := mkEnv true [goodFile]
def envC1 : ScanEnv := mkEnv true [noLinkFile]
def envAB : ScanEnv := mkEnv true [mkLinkFile "a.csv" "A" "1", mkLinkFile "b.csv" "B" "2"]
def envAA : ScanEnv := mkEnv true [mkLinkFile "a.csv" "A" "1", mkLinkFile "c.csv" "A" "2"]
def envNoLink : ScanEnv := mkEnv true [noLinkFile]
def envMix : ScanEnv := mkEnv false [mkLinkFile "a.csv" "A" "1", noLinkFile]
def envGF : ScanEnv := mkEnv false [goodFile]

/-- An environment with signature checking enabled and no recorded
checksums. -/
def envC5 : ScanEnv :=
  { plugins_folder := none, nasl_no_signature_check := false,
    table_driven_lsc := true, files := [goodFile],
    file_checksum := fun _ => none, sha256hex := fun _ => "h" }

/-! Helper lemmas. -/

theorem exceptBind_ok {α β : Type} {x : Except PyErr α} {f : α → Except PyErr β}
    {b : β} : (x >>= f) = Except.ok b ↔ ∃ a, x = Except.ok a ∧ f a = Except.ok b := by
  cases x with
  | error e => simp [Bind.bind, Except.bind]
  | ok a => simp [Bind.bind, Except.bind]

theorem chunks4096_flatten (l : List Nat) : (chunks4096 l).flatten = l := by
  induction l using chunks4096.induct with
  | case1 => simp [chunks4096]
  | case2 x xs ih =>
    rw [chunks4096]
    simp only [List.flatten_cons, ih, List.take_append_drop]

/-! Claim theorems. -/

/-- C5: `is_checksum_correct` returns true unconditionally when
`nasl_no_signature_check` is set; otherwise it returns true iff the
SHA-256 digest of the file's bytes, streamed in 4096-byte chunks, equals
the digest fetched from the cache, and an absent digest is an ordinary
verification failure (`false`), not a raised error. -/
theorem is_checksum_correct_spec (env : ScanEnv) (f : NotusFile) :
    (is_checksum_correct env f = true ↔
      (env.nasl_no_signature_check = true ∨
        env.file_checksum f.path = some (env.sha256hex (fileBytes f)))) ∧
    (env.nasl_no_signature_check = false → env.file_checksum f.path = none →
      is_checksum_correct env f = false) := by
  have hfl : (chunks4096 (fileBytes f)).flatten = fileBytes f := chunks4096_flatten _
  constructor
  · cases h : env.nasl_no_signature_check with
    | true => simp [is_checksum_correct, h]
    | false => simp [is_checksum_correct, h, hfl, eq_comm]
  · intro h1 h2
    simp [is_checksum_correct, h1, h2, hfl]

/-- C5 witness: with signature checking enabled and no recorded checksum,
verification of the sample file fails without raising. -/
theorem is_checksum_correct_spec_witness :
    is_checksum_correct envC5 goodFile = false :=
  (is_checksum_correct_spec envC5 goodFile).2 rfl rfl

/-- C6: on a file with no line starting with `"link = "`,
`parse_family_driver_link` raises `UnboundLocalError` (the local `link`
was never assigned) instead of returning `None` as documented; on a file
whose link line carries a literal mapping it returns that single-entry
mapping. -/
theorem parse_family_driver_link_eval :
    parse_family_driver_link ["# c\n", "no link here\n"] =
      Except.error PyErr.unboundLocalError ∧
    parse_family_driver_link
        ["link = \x7b" ++ sq ++ "Debian Local Security Checks" ++ sq ++ ": " ++
          sq ++ "1.3.6.1.4.1.25623.1.0.50000" ++ sq ++ "\x7d\n"] =
      Except.ok (some (PyLit.dict
        [(PyLit.str "Debian Local Security Checks",
          PyLit.str "1.3.6.1.4.1.25623.1.0.50000")])) :=
  ⟨rfl, rfl⟩

/-- C7: `get_family_driver_linkers` unions the per-file mappings with the
later file winning on a shared family and returns an empty mapping on an
empty directory, but on a directory holding a verified file without a
`"link = "` line it raises `UnboundLocalError` instead of always
returning a mapping as its docstring promises. -/
theorem get_family_driver_linkers_eval :
    get_family_driver_linkers envAB =
      Except.ok [(PyLit.str "A", PyLit.str "1"), (PyLit.str "B", PyLit.str "2")] ∧
    get_family_driver_linkers envAA =
      Except.ok [(PyLit.str "A", PyLit.str "2")] ∧
    get_family_driver_linkers (mkEnv true []) = Except.ok [] ∧
    get_family_driver_linkers envNoLink = Except.error PyErr.unboundLocalError :=
  ⟨rfl, rfl, rfl, rfl⟩

/-- C9 counterexample: with no override, a reported-but-empty
`plugins_folder` setting and no `INSTALL_PREFIX`, the code falls through
to the production fallback path, not to the claimed
`plugins_folder`-derived path. -/
theorem metadata_path_empty_plugins_folder :
    metadata_path none (some "") none = "/opt/greenbone/feed/plugins/notus_metadata/" ∧
    metadata_path_claim none (some "") none = "/notus_metadata/" ∧
    ("/opt/greenbone/feed/plugins/notus_metadata/" : String) ≠ "/notus_metadata/" :=
  ⟨rfl, rfl, by decide⟩

/-- C9 amended: the four-way precedence of `metadata_path`, with the
`plugins_folder` tier requiring a non-empty setting (like the
`INSTALL_PREFIX` tier). -/
theorem metadata_path_precedence :
    ∀ pathArg pluginsFolder installPfx : Option String,
      (∀ p, pathArg = some p → metadata_path pathArg pluginsFolder installPfx = p) ∧
      (pathArg = none → ∀ q, pluginsFolder = some q → q ≠ "" →
        metadata_path pathArg pluginsFolder installPfx = q ++ "/notus_metadata/") ∧
      (pathArg = none → (pluginsFolder = none ∨ pluginsFolder = some "") →
        ∀ r, installPfx = some r → r ≠ "" →
        metadata_path pathArg pluginsFolder installPfx =
          r ++ "/var/lib/openvas/plugins/notus_metadata/") ∧
      (pathArg = none → (pluginsFolder = none ∨ pluginsFolder = some "") →
        (installPfx = none ∨ installPfx = some "") →
        metadata_path pathArg pluginsFolder installPfx =
          "/opt/greenbone/feed/plugins/notus_metadata/") := by
  intro pathArg pluginsFolder installPfx
  refine ⟨?_, ?_, ?_, ?_⟩
  · intro p hp; subst hp; rfl
  · intro hp q hq hq2; subst hp; subst hq
    show metadata_path none (some q) installPfx = _
    simp only [metadata_path, Option.getD, METADATA_DIRECTORY_NAME, if_pos hq2,
      String.append_assoc]
    rfl
  · intro hp hpf r hr hr2; subst hp; subst hr
    have hempty : (pluginsFolder.getD "") = "" := by
      rcases hpf with h | h <;> subst h <;> rfl
    simp only [metadata_path, hempty, Option.getD_some, METADATA_DIRECTORY_NAME,
      String.append_assoc]
    rw [if_neg (by simp), if_pos hr2]
    rfl
  · intro hp hpf hip; subst hp
    have hempty : (pluginsFolder.getD "") = "" := by
      rcases hpf with h | h <;> subst h <;> rfl
    have hempty2 : (installPfx.getD "") = "" := by
      rcases hip with h | h <;> subst h <;> rfl
    simp only [metadata_path, hempty, hempty2, METADATA_DIRECTORY_NAME]
    rw [if_neg (by simp), if_neg (by simp)]
    rfl

/-- C9 witness: the four tiers at concrete inputs. -/
theorem metadata_path_precedence_witness :
    metadata_path (some "/ovr/") none none = "/ovr/" ∧
    metadata_path none (some "/plug") none = "/plug/notus_metadata/" ∧
    metadata_path none none (some "/pre") =
      "/pre/var/lib/openvas/plugins/notus_metadata/" ∧
    metadata_path none (some "") (some "") =
      "/opt/greenbone/feed/plugins/notus_metadata/" :=
  ⟨(metadata_path_precedence _ _ _).1 _ rfl,
   (metadata_path_precedence _ _ _).2.1 rfl _ rfl (by decide),
   (metadata_path_precedence _ _ _).2.2.1 rfl (Or.inl rfl) _ rfl (by decide),
   (metadata_path_precedence _ _ _).2.2.2 rfl (Or.inr rfl) (Or.inr rfl)⟩

theorem checkFieldStep_ok_true_iff (k : String) (v : Option String) :
    checkFieldStep k v = Except.ok true ↔
      v.getD "" ≠ "" ∧ (k = "SOURCE_PKGS" → parsesWithPosLen (v.getD "") = true) := by
  cases v with
  | none => simp [checkFieldStep]
  | some s =>
    by_cases hs : s = ""
    · subst hs; simp [checkFieldStep]
    · by_cases hk : k = "SOURCE_PKGS"
      · subst hk
        simp only [checkFieldStep, if_neg hs, if_pos rfl, Option.getD_some,
          parsesWithPosLen, ne_eq, hs, not_false_eq_true, true_and,
          forall_const]
        cases hlit : literalEval s with
        | none =>
          by_cases hx : pyExprSyntaxOk s <;> simp [hx]
        | some lit =>
          cases hlen : pyLen lit with
          | none => simp [hlen]
          | some n =>
            simp only [hlen, Except.ok.injEq]
            cases n with
            | zero => simp
            | succ m => simp
      · simp only [checkFieldStep, if_neg hs, if_neg hk, Option.getD_some,
          ne_eq, hs, not_false_eq_true, true_and]
        simp [hk]

theorem check_advisory_ok_true_iff (adv : Advisory) :
    _check_advisory_dict adv = Except.ok true ↔
      ∀ kv ∈ adv, kv.2.getD "" ≠ "" ∧
        (kv.1 = "SOURCE_PKGS" → parsesWithPosLen (kv.2.getD "") = true) := by
  induction adv with
  | nil => simp [_check_advisory_dict]
  | cons kv rest ih =>
    obtain ⟨k, v⟩ := kv
    simp only [_check_advisory_dict, exceptBind_ok]
    constructor
    · rintro ⟨c, hc, hif⟩
      cases c with
      | false => simp [pure, Except.pure] at hif
      | true =>
        have h1 := (checkFieldStep_ok_true_iff k v).mp hc
        intro kv hkv
        rcases List.mem_cons.mp hkv with h | h
        · subst h; exact h1
        · exact (ih.mp (by simpa using hif)) kv h
    · intro hall
      refine ⟨true, (checkFieldStep_ok_true_iff k v).mpr
        (hall (k, v) (List.mem_cons_self _ _)), ?_⟩
      simpa using ih.mpr (fun kv hkv => hall kv (List.mem_cons_of_mem _ hkv))

/-- C4 counterexample: a fully populated record whose `SOURCE_PKGS` field
holds the non-list literal `'abc'` is accepted by `_check_advisory_dict`,
although the claim requires rejection of any value that does not parse as
a list literal. -/
theorem check_advisory_accepts_nonlist_literal :
    _check_advisory_dict (advSp (sq ++ "abc" ++ sq)) = Except.ok true ∧
    isListLiteral (sq ++ "abc" ++ sq) = false :=
  ⟨rfl, rfl⟩

/-- C4 amended: `_check_advisory_dict` accepts a record iff every field
value is non-empty and `SOURCE_PKGS` parses as some literal with a
defined, positive `len()` (not necessarily a list); the claim's concrete
examples behave as stated. -/
theorem check_advisory_dict_characterization :
    (∀ adv : Advisory, _check_advisory_dict adv = Except.ok true ↔
      ∀ kv ∈ adv, kv.2.getD "" ≠ "" ∧
        (kv.1 = "SOURCE_PKGS" → parsesWithPosLen (kv.2.getD "") = true)) ∧
    _check_advisory_dict (advSp (listLit "a")) = Except.ok true ∧
    _check_advisory_dict (advSp "[]") = Except.ok false ∧
    _check_advisory_dict (advSp "not-a-list") = Except.ok false :=
  ⟨check_advisory_ok_true_iff, rfl, rfl, rfl⟩

/-- C4 witness: the characterization applied to a concrete valid record. -/
theorem check_advisory_dict_characterization_witness :
    _check_advisory_dict advGood = Except.ok true :=
  (check_advisory_dict_characterization.1 advGood).mpr (by decide)

/-- C2 counterexample: `advC2` passes validation although its `CVE_LIST`
value does not textually encode a non-empty list, and the transformation's
literal parse of that field then raises `ValueError`. -/
theorem validator_accepts_unparseable_cve :
    _check_advisory_dict advC2 = Except.ok true ∧
    advGetE advC2 "CVE_LIST" = Except.ok "nope" ∧
    parsesAsNonEmptyList "nope" = false ∧
    transform_advisory advC2 gen0 "Fam" = Except.error PyErr.valueError :=
  ⟨rfl, rfl, rfl, rfl⟩

/-- C2 amended: a record accepted by the validator has every field value
non-empty and its `SOURCE_PKGS` parseable with positive length; nothing
more is guaranteed for `CVE_LIST` and `XREFS`, whose parse in the
transformation step can therefore still fail. -/
theorem validator_guarantees_source_pkgs_only :
    ∀ adv : Advisory, _check_advisory_dict adv = Except.ok true →
      ∀ kv ∈ adv, kv.2.getD "" ≠ "" ∧
        (kv.1 = "SOURCE_PKGS" → parsesWithPosLen (kv.2.getD "") = true) :=
  fun adv h => (check_advisory_ok_true_iff adv).mp h

/-- C2 witness: the guarantee applied to the `SOURCE_PKGS` entry of the
concrete validated record `advC2`. -/
theorem validator_guarantees_source_pkgs_only_witness :
    parsesWithPosLen (listLit "p2") = true :=
  (validator_guarantees_source_pkgs_only advC2 rfl
    ("SOURCE_PKGS", some (listLit "p2")) (by decide)).2 rfl

/-- C3 counterexample: a validated record whose `CVE_LIST` does not parse
makes the transformation raise instead of producing the 15-element
list. -/
theorem transform_fails_on_validated_record :
    _check_advisory_dict advC3 = Except.ok true ∧
    transform_advisory advC3 gen0 "F3" = Except.error PyErr.valueError :=
  ⟨rfl, rfl⟩

/-- C3 amended: whenever the transformation succeeds it yields exactly 15
strings in the fixed order: virtual path, six empty reserved fields, the
tag string, the comma-space-joined CVE list, an empty bug-ID field, the
cross-reference string, the constants `"3"` and `"0"`, the family and the
title; the transformation is a pure function of the row, the general
metadata and the family. -/
theorem transform_advisory_shape :
    ∀ (adv : Advisory) (gen : PyLit) (family : String) (fields : List String),
      transform_advisory adv gen family = Except.ok fields →
      fields.length = 15 ∧
      ∃ fn tags cves xr title,
        advGetE adv "FILENAME" = Except.ok fn ∧
        advGetE adv "TITLE" = Except.ok title ∧
        (∃ cveRaw cveLit, advGetE adv "CVE_LIST" = Except.ok cveRaw ∧
          literalEvalE cveRaw = Except.ok cveLit ∧
          pyJoinComma cveLit = Except.ok cves) ∧
        (∃ axr xrRaw xrLit xrElems,
          advGetE adv "ADVISORY_XREF" = Except.ok axr ∧
          advGetE adv "XREFS" = Except.ok xrRaw ∧
          literalEvalE xrRaw = Except.ok xrLit ∧
          pyIter xrLit = Except.ok xrElems ∧
          xr = _format_xrefs axr xrElems) ∧
        fields = ["notus_metadata/" ++ fn, "", "", "", "", "", "", tags, cves,
                  "", xr, SCRIPT_CATEGORY, SCRIPT_TIMEOUT, family, title] := by
  intro adv gen family fields h
  simp only [transform_advisory, exceptBind_ok, pure, Except.pure,
    Except.ok.injEq] at h
  obtain ⟨fn, hfn, so, hso, sd, hsd, sv, hsv, lm, hlm, cd, hcd, su, hsu,
    vd, hvd, ins, hins, aff, haff, sol, hsol, solt, hsolt, qod, hqod,
    cveRaw, hcveRaw, cveLit, hcveLit, cveStr, hcveStr, axr, haxr,
    xrRaw, hxrRaw, xrLit, hxrLit, xrElems, hxrElems, title, htitle, heq⟩ := h
  subst heq
  exact ⟨rfl, fn, _, cveStr, _, title, hfn, htitle,
    ⟨cveRaw, cveLit, hcveRaw, hcveLit, hcveStr⟩,
    ⟨axr, xrRaw, xrLit, xrElems, haxr, hxrRaw, hxrLit, hxrElems, rfl⟩, rfl⟩

/-- C3 witness: the shape theorem applied to a concrete transformation. -/
theorem transform_advisory_shape_witness : transformedGood.length = 15 :=
  (transform_advisory_shape advGood gen0 "Fam" transformedGood rfl).1

theorem upload_go_ok_iff (family : String) (gen : PyLit) :
    ∀ (advs : List Advisory) (loaded total : Nat) (ws ws2 : List CacheWrite)
      (b : Bool), loaded ≤ total →
      upload_go family gen advs loaded total ws = Except.ok (ws2, b) →
      (b = true ↔ (loaded = total ∧ advs.all (row_loaded gen family) = true)) := by
  intro advs
  induction advs with
  | nil =>
    intro loaded total ws ws2 b hle h
    simp only [upload_go, Except.ok.injEq, Prod.mk.injEq] at h
    obtain ⟨-, hb⟩ := h
    subst hb
    simp [beq_iff_eq]
  | cons adv rest ih =>
    intro loaded total ws ws2 b hle h
    rw [upload_go] at h
    cases hc : _check_advisory_dict adv with
    | error e => rw [hc] at h; simp at h
    | ok isCorrect =>
      rw [hc] at h
      cases isCorrect with
      | false =>
        simp only [Bool.not_false, if_true] at h
        have hrec := ih loaded (total + 1) ws ws2 b (by omega) h
        have hrl : row_loaded gen family adv = false := by simp [row_loaded, hc]
        simp only [List.all_cons, hrl, Bool.false_and]
        rw [hrec]
        constructor
        · rintro ⟨h1, -⟩; exact absurd h1 (by omega)
        · rintro ⟨-, hcontra⟩; cases hcontra
      | true =>
        simp only [Bool.not_true, Bool.false_eq_true, if_false] at h
        cases hoid : advGetE adv "OID" with
        | error e => rw [hoid] at h; simp at h
        | ok oid =>
          rw [hoid] at h
          simp only [] at h
          cases htr : transform_advisory adv gen family with
          | error e => rw [htr] at h; simp at h
          | ok fields =>
            rw [htr] at h
            simp only [] at h
            by_cases hacc : add_vt_to_cache_accepts fields = true
            · rw [if_pos hacc] at h
              have hrec := ih (loaded + 1) (total + 1) _ ws2 b (by omega) h
              have hrl : row_loaded gen family adv = true := by
                simp [row_loaded, hc, hoid, htr, hacc]
              simp only [List.all_cons, hrl, Bool.true_and]
              rw [hrec]
              constructor
              · rintro ⟨h1, h2a⟩; exact ⟨by omega, h2a⟩
              · rintro ⟨h1, h2a⟩; exact ⟨by omega, h2a⟩
            · rw [if_neg hacc] at h
              have hrec := ih loaded (total + 1) ws ws2 b (by omega) h
              have hrl : row_loaded gen family adv = false := by
                simp [row_loaded, hc, hoid, htr, hacc]
              simp only [List.all_cons, hrl, Bool.false_and]
              rw [hrec]
              constructor
              · rintro ⟨h1, -⟩; exact absurd h1 (by omega)
              · rintro ⟨-, hcontra⟩; cases hcontra

/-- C10: when `upload_lsc_from_csv_reader` returns a boolean at all, it
returns true iff every data row was both accepted by validation and
successfully written to the cache (`loaded == total`); on a file with
zero data rows it returns true (0 of 0 loaded) with no writes. -/
theorem upload_result_iff_all_loaded :
    (∀ (fileName family : String) (gen : PyLit) (advs : List Advisory)
        (ws : List CacheWrite) (b : Bool),
      upload_lsc_from_csv_reader fileName family gen advs = Except.ok (ws, b) →
      (b = true ↔ advs.all (row_loaded gen family) = true)) ∧
    (∀ fileName family gen,
      upload_lsc_from_csv_reader fileName family gen [] = Except.ok ([], true)) := by
  constructor
  · intro fileName family gen advs ws b h
    have := upload_go_ok_iff family gen advs 0 0 [] ws b (Nat.le_refl 0) h
    simpa using this
  · intro _ _ _; rfl

/-- C10 witness: the equivalence applied to a concrete one-row upload. -/
theorem upload_result_iff_all_loaded_witness :
    (true = true ↔ ([advGood].all (row_loaded gen0 "Fam")) = true) :=
  upload_result_iff_all_loaded.1 "f" "Fam" gen0 [advGood]
    [("nvt:1.1", transformedGood)] true rfl

theorem upload_go_isOk (family : String) (gen : PyLit) :
    ∀ (advs : List Advisory) (loaded total : Nat) (ws : List CacheWrite),
      (∀ adv ∈ advs, isOkE (_check_advisory_dict adv) = true ∧
        (_check_advisory_dict adv = Except.ok true →
          isOkE (advGetE adv "OID") = true ∧
          isOkE (transform_advisory adv gen family) = true)) →
      isOkE (upload_go family gen advs loaded total ws) = true := by
  intro advs
  induction advs with
  | nil => intro loaded total ws _; rfl
  | cons adv rest ih =>
    intro loaded total ws hall
    obtain ⟨hok, himp⟩ := hall adv (List.mem_cons_self _ _)
    have hrest := fun adv2 h2 => hall adv2 (List.mem_cons_of_mem _ h2)
    cases hc : _check_advisory_dict adv with
    | error e => rw [hc] at hok; simp [isOkE] at hok
    | ok c =>
      cases c with
      | false =>
        simp only [upload_go, hc]
        exact ih _ _ _ hrest
      | true =>
        obtain ⟨hoid, htr⟩ := himp hc
        cases hoidv : advGetE adv "OID" with
        | error e => rw [hoidv] at hoid; simp [isOkE] at hoid
        | ok oid =>
          cases htrv : transform_advisory adv gen family with
          | error e => rw [htrv] at htr; simp [isOkE] at htr
          | ok fields =>
            by_cases hacc : add_vt_to_cache_accepts fields = true
            · simp only [upload_go, hc, hoidv, htrv, hacc]
              exact ih _ _ _ hrest
            · simp only [upload_go, hc, hoidv, htrv, if_neg hacc]
              exact ih _ _ _ hrest

theorem update_metadata_go_isOk (env : ScanEnv) :
    ∀ fs : List NotusFile, (∀ f ∈ fs, isOkE (process_csv_file env f) = true) →
      isOkE (update_metadata_go env fs) = true := by
  intro fs
  induction fs with
  | nil => intro _; rfl
  | cons f rest ih =>
    intro hall
    have hf := hall f (List.mem_cons_self _ _)
    cases hpf : process_csv_file env f with
    | error e => rw [hpf] at hf; simp [isOkE] at hf
    | ok ws =>
      cases hrest : update_metadata_go env rest with
      | error e =>
        have hr := ih (fun g hg => hall g (List.mem_cons_of_mem _ hg))
        rw [hrest] at hr; simp [isOkE] at hr
      | ok ws2 =>
        simp [update_metadata_go, hpf, hrest, isOkE, pure, Except.pure,
          Bind.bind, Except.bind]

/-- C1 counterexample: a run over one verified file lacking a `"link = "`
header line terminates with an uncaught `UnboundLocalError`, although the
claim only allows the startup connectivity failure to terminate a run. -/
theorem update_metadata_raises_on_missing_link :
    is_checksum_correct envC1 noLinkFile = true ∧
    update_metadata envC1 = Except.error PyErr.unboundLocalError :=
  ⟨rfl, rfl⟩

/-- C1 amended: a verification failure or a field-name mismatch skips the
file without an exception, a row whose validation and transformation do
not themselves raise never aborts the upload (invalid rows and
cache-rejected rows are just skipped), and a run over files whose
processing raises no exception completes; but header extraction and row
transformation can raise and terminate the run. -/
theorem update_metadata_error_containment :
    (∀ env f, is_checksum_correct env f = false →
      process_csv_file env f = Except.ok []) ∧
    (∀ env f family gen rest2, is_checksum_correct env f = true →
      read_file_header f.content = Except.ok (family, gen, rest2) →
      _check_field_names_lsc ((rest2.map csvRow).head?) = false →
      process_csv_file env f = Except.ok []) ∧
    (∀ (fileName family : String) (gen : PyLit) (advs : List Advisory),
      (∀ adv ∈ advs, isOkE (_check_advisory_dict adv) = true ∧
        (_check_advisory_dict adv = Except.ok true →
          isOkE (advGetE adv "OID") = true ∧
          isOkE (transform_advisory adv gen family) = true)) →
      isOkE (upload_lsc_from_csv_reader fileName family gen advs) = true) ∧
    (∀ env, (∀ f ∈ env.files, isOkE (process_csv_file env f) = true) →
      isOkE (update_metadata env) = true) := by
  refine ⟨?_, ?_, ?_, ?_⟩
  · intro env f h
    simp [process_csv_file, h]
  · intro env f family gen rest2 hchk hdr hfn
    simp only [process_csv_file, hchk, Bool.not_true, Bool.false_eq_true,
      if_false, hdr]
    cases hrows : rest2.map csvRow with
    | nil => simp [hrows]
    | cons header dataRows =>
      rw [hrows] at hfn
      simp only [List.head?_cons] at hfn
      simp [hrows, hfn]
  · intro fileName family gen advs hall
    exact upload_go_isOk family gen advs 0 0 [] hall
  · intro env hall
    cases hg : env.table_driven_lsc with
    | false => simp [update_metadata, hg, isOkE]
    | true =>
      simp only [update_metadata, hg, Bool.not_true, Bool.false_eq_true,
        if_false]
      exact update_metadata_go_isOk env env.files hall

/-- C1 witness: containment applied to the concrete well-formed run. -/
theorem update_metadata_error_containment_witness :
    isOkE (update_metadata envG) = true :=
  update_metadata_error_containment.2.2.2 envG (by decide)

theorem dictInsert_ne_nil (ps : List (PyLit × PyLit)) (k v : PyLit) :
    dictInsert ps k v ≠ [] := by
  by_cases h : ps.any (fun p => pyBeq p.1 k) = true
  · simp only [dictInsert, if_pos h]
    intro he
    rw [List.map_eq_nil_iff] at he
    subst he
    simp at h
  · simp only [dictInsert, if_neg h]
    simp

theorem dictUpdatePairs_ne_nil (acc ps : List (PyLit × PyLit))
    (h : acc ≠ [] ∨ ps ≠ []) : dictUpdatePairs acc ps ≠ [] := by
  induction ps generalizing acc with
  | nil =>
    rcases h with h | h
    · simpa [dictUpdatePairs] using h
    · exact absurd rfl h
  | cons p rest ih =>
    show dictUpdatePairs (dictInsert acc p.1 p.2) rest ≠ []
    exact ih (dictInsert acc p.1 p.2) (Or.inl (dictInsert_ne_nil _ _ _))

theorem gfdl_go_ok (env : ScanEnv) :
    ∀ (fs : List NotusFile) (acc : List (PyLit × PyLit)),
      (∀ f ∈ fs, is_checksum_correct env f = true →
        ∃ d, parse_family_driver_link (splitLinesKeep f.content) = Except.ok d ∧
          (d = none ∨ ∃ ps, d = some (PyLit.dict ps))) →
      ∃ m, gfdl_go env fs acc = Except.ok m ∧
        ((acc ≠ [] ∨ ∃ f ∈ fs, is_checksum_correct env f = true ∧
            ∃ ps, ps ≠ [] ∧
              parse_family_driver_link (splitLinesKeep f.content) =
                Except.ok (some (PyLit.dict ps))) → m ≠ []) := by
  intro fs
  induction fs with
  | nil =>
    intro acc _
    refine ⟨acc, rfl, ?_⟩
    rintro (h | ⟨f, hf, -⟩)
    · exact h
    · simp at hf
  | cons f rest ih =>
    intro acc hall
    have hrest := fun g hg => hall g (List.mem_cons_of_mem _ hg)
    by_cases hchk : is_checksum_correct env f = true
    · obtain ⟨d, hd, hdd⟩ := hall f (List.mem_cons_self _ _) hchk
      rcases hdd with hnone | ⟨ps, hps⟩
      · subst hnone
        obtain ⟨m, hm, hne⟩ := ih acc hrest
        refine ⟨m, ?_, ?_⟩
        · simp only [gfdl_go, hchk, hd, Bool.not_true, Bool.false_eq_true,
            if_false]
          exact hm
        · rintro (h | ⟨g, hg, hcg, ps2, hps2, hpg⟩)
          · exact hne (Or.inl h)
          · rcases List.mem_cons.mp hg with rfl | hg2
            · rw [hpg] at hd; cases hd
            · exact hne (Or.inr ⟨g, hg2, hcg, ps2, hps2, hpg⟩)
      · subst hps
        cases ps with
        | nil =>
          obtain ⟨m, hm, hne⟩ := ih acc hrest
          refine ⟨m, ?_, ?_⟩
          · simp only [gfdl_go, hchk, hd, Bool.not_true, Bool.false_eq_true,
              if_false, pyTruthy, List.isEmpty_nil, Bool.not_true]
            exact hm
          · rintro (h | ⟨g, hg, hcg, ps2, hps2, hpg⟩)
            · exact hne (Or.inl h)
            · rcases List.mem_cons.mp hg with rfl | hg2
              · rw [hpg] at hd
                simp only [Except.ok.injEq, Option.some.injEq,
                  PyLit.dict.injEq] at hd
                exact absurd hd hps2
              · exact hne (Or.inr ⟨g, hg2, hcg, ps2, hps2, hpg⟩)
        | cons q qs =>
          obtain ⟨m, hm, hne⟩ :=
            ih (dictUpdatePairs acc (q :: qs)) hrest
          refine ⟨m, ?_, fun _ => hne (Or.inl ?_)⟩
          · simp only [gfdl_go, hchk, hd, Bool.not_true, Bool.false_eq_true,
              if_false, pyTruthy, List.isEmpty_cons, Bool.not_false, if_true,
              pyDictUpdate]
            exact hm
          · exact dictUpdatePairs_ne_nil acc (q :: qs)
              (Or.inr (by simp))
    · obtain ⟨m, hm, hne⟩ := ih acc hrest
      refine ⟨m, ?_, ?_⟩
      · simp only [gfdl_go, Bool.not_eq_true] at hm ⊢
        rw [Bool.not_eq_true] at hchk  -- hmm
        simp [hchk, hm]
      · rintro (h | ⟨g, hg, hcg, ps2, hps2, hpg⟩)
        · exact hne (Or.inl h)
        · rcases List.mem_cons.mp hg with rfl | hg2
          · exact absurd hcg hchk
          · exact hne (Or.inr ⟨g, hg2, hcg, ps2, hps2, hpg⟩)

/-- C8 counterexample: with the feature gate off, a directory holding a
valid (verified, link-bearing) file together with a verified link-less
file makes `get_family_driver_linkers` raise instead of returning a
non-empty mapping, while `update_metadata` performs zero writes. -/
theorem gate_off_valid_file_but_no_mapping :
    envMix.table_driven_lsc = false ∧
    is_checksum_correct envMix (mkLinkFile "a.csv" "A" "1") = true ∧
    parse_family_driver_link
        (splitLinesKeep (mkLinkFile "a.csv" "A" "1").content) =
      Except.ok (some (PyLit.dict [(PyLit.str "A", PyLit.str "1")])) ∧
    update_metadata envMix = Except.ok [] ∧
    get_family_driver_linkers envMix = Except.error PyErr.unboundLocalError :=
  ⟨rfl, rfl, rfl, rfl, rfl⟩

/-- C8 amended: with `table_driven_lsc` false, `update_metadata` returns
immediately with zero cache writes and independently of the discovered
files, while `get_family_driver_linkers` (which ignores the gate) returns
a non-empty mapping provided every verified file's link header parses to
a dict (or its absence is reported as `None`) and some verified file
carries a non-empty link dict. -/
theorem feature_gate_frame :
    (∀ env : ScanEnv, env.table_driven_lsc = false →
      update_metadata env = Except.ok [] ∧
      (∀ fs, update_metadata { env with files := fs } = Except.ok [])) ∧
    (∀ env : ScanEnv, env.table_driven_lsc = false →
      (∀ f ∈ env.files, is_checksum_correct env f = true →
        ∃ d, parse_family_driver_link (splitLinesKeep f.content) = Except.ok d ∧
          (d = none ∨ ∃ ps, d = some (PyLit.dict ps))) →
      (∃ f ∈ env.files, is_checksum_correct env f = true ∧
        ∃ ps, ps ≠ [] ∧
          parse_family_driver_link (splitLinesKeep f.content) =
            Except.ok (some (PyLit.dict ps))) →
      ∃ m, get_family_driver_linkers env = Except.ok m ∧ m ≠ []) := by
  constructor
  · intro env h
    constructor
    · simp [update_metadata, h]
    · intro fs
      simp [update_metadata, h]
  · intro env _ hall hex
    obtain ⟨m, hm, hne⟩ := gfdl_go_ok env env.files [] hall
    exact ⟨m, hm, hne (Or.inr hex)⟩

/-- C8 witness: the gate-off frame property and the non-empty mapping on
a concrete environment with one valid file. -/
theorem feature_gate_frame_witness :
    update_metadata envGF = Except.ok [] ∧
    (∃ m, get_family_driver_linkers envGF = Except.ok m ∧ m ≠ []) := by
  refine ⟨(feature_gate_frame.1 envGF rfl).1,
    feature_gate_frame.2 envGF rfl ?_ ?_⟩
  · intro f hf _
    have hfg : f = goodFile := List.mem_singleton.mp hf
    subst hfg
    exact ⟨some (PyLit.dict
      [(PyLit.str "Debian Local Security Checks",
        PyLit.str "1.3.6.1.4.1.25623.1.0.50000")]), rfl, Or.inr ⟨_, rfl⟩⟩
  · exact ⟨goodFile, List.mem_singleton_self _, rfl,
      [(PyLit.str "Debian Local Security Checks",
        PyLit.str "1.3.6.1.4.1.25623.1.0.50000")], by simp, rfl⟩

end Notus
